import Mathlib

/-!
Verification of the gearman client/worker/admin command-handler state machines.

The Python source is embedded shallowly:
- mutable per-connection handler objects become explicit state records,
  threaded through each `recv_*` / `send_*` operation;
- Python dictionaries become functions `String → Option _` (for handler maps)
  or association lists (where the key set itself is observed);
- `collections.deque` becomes a `List` (append at the back, pop at the front);
- raising an exception becomes returning `.error` in `Except`;
- the payload-decoding hook (`decode_data`) and Python `float(..)` parsing are
  external primitives of the library, so they are carried as parameters
  `decode : String → D` and `pyfloat : String → F` over arbitrary types.
-/

namespace Gearman

/-- The four job-request states from `gearman.constants`
    (JOB_PENDING, JOB_QUEUED, JOB_COMPLETE, JOB_FAILED). -/
inductive JobState where
  | PENDING
  | QUEUED
  | COMPLETE
  | FAILED
deriving DecidableEq, Repr

/-- Python exceptions that the client command handler can raise:
    `InvalidClientState` (from `gearman.errors`) and the built-in `KeyError`
    raised by an unchecked dictionary lookup `d[k]`. -/
inductive PyErr where
  | invalidClientState (msg : String)
  | keyError (key : String)
deriving DecidableEq, Repr

/-- Rendering of the state constants used in error messages. -/
def stateRepr : JobState → String
  | .PENDING => "JOB_PENDING"
  | .QUEUED => "JOB_QUEUED"
  | .COMPLETE => "JOB_COMPLETE"
  | .FAILED => "JOB_FAILED"

/-- Python `'%s' % x` where `x` is a string or `None`. -/
def optStr : Option String → String
  | none => "None"
  | some s => s

/-- `server_status` dictionary built by `recv_status_res`.
    `time_received` is `time.time()`, a float, carried abstractly in `F`. -/
structure ServerStatus (F : Type) where
  handle : String
  known : Bool
  running : Bool
  numerator : F
  denominator : F
  time_received : F

/-- A client-side `GearmanJobRequest` together with its embedded `GearmanJob`
    (fields `handle`, `task`, `unique`, `jobData` come from the job object).
    `F` is the type of parsed floats, `D` the type of decoded payloads. -/
structure CJobRequest (F D : Type) where
  handle : Option String
  task : String
  unique : String
  jobData : String
  state : JobState
  result : Option D
  exception : Option D
  data_updates : List D
  warning_updates : List D
  status_updates : List (F × F)
  server_status : Option (ServerStatus F)

/-- `GearmanClientCommandHandler` state: the FIFO of requests awaiting a server
    handle and the handle-to-request dictionary. -/
structure CHState (F D : Type) where
  requests_awaiting_handles : List (CJobRequest F D)
  handle_to_request_map : String → Option (CJobRequest F D)

/-- Python dict assignment `d[k] = v`. -/
def mapInsert (k : String) (v : CJobRequest F D)
    (m : String → Option (CJobRequest F D)) : String → Option (CJobRequest F D) :=
  fun g => if g = k then some v else m g

/-- Python dict lookup `d[k]`, raising `KeyError` on a missing key. -/
def dictGet (m : String → Option (CJobRequest F D)) (k : String) :
    Except PyErr (CJobRequest F D) :=
  match m k with
  | some v => .ok v
  | none => .error (.keyError k)

/-- `GearmanClientCommandHandler._assert_request_state`. -/
def assert_request_state (current_request : CJobRequest F D)
    (expected_state : JobState) : Except PyErr Unit :=
  if current_request.state ≠ expected_state then
    .error (.invalidClientState
      ("Expected handle (" ++ optStr current_request.handle ++ ") to be in state "
        ++ stateRepr expected_state ++ ", got " ++ stateRepr current_request.state))
  else
    .ok ()

/-- `GearmanClientCommandHandler.send_job_request`.  The wire emission
    (`submit_cmd_for_background_priority`, `encode_data`, `send_command`) is
    connection I/O performed outside the handler's tracked state; the state
    effect is appending the request to `requests_awaiting_handles`. -/
def send_job_request (current_request : CJobRequest F D) (s : CHState F D) :
    CHState F D :=
  { s with requests_awaiting_handles :=
      s.requests_awaiting_handles ++ [current_request] }

/-- `GearmanClientCommandHandler.recv_job_created`. -/
def recv_job_created (job_handle : String) (s : CHState F D) :
    Except PyErr (CHState F D) :=
  match s.requests_awaiting_handles with
  | [] => .error (.invalidClientState "Received a job_handle with no pending requests")
  | current_request :: rest =>
    match assert_request_state current_request .PENDING with
    | .error e => .error e
    | .ok _ =>
      let updated := { current_request with
        handle := some job_handle, state := JobState.QUEUED }
      .ok { requests_awaiting_handles := rest,
            handle_to_request_map :=
              mapInsert job_handle updated s.handle_to_request_map }

/-- `GearmanClientCommandHandler.recv_work_data`. -/
def recv_work_data (decode : String → D) (job_handle data : String)
    (s : CHState F D) : Except PyErr (CHState F D) :=
  match dictGet s.handle_to_request_map job_handle with
  | .error e => .error e
  | .ok current_request =>
    match assert_request_state current_request .QUEUED with
    | .error e => .error e
    | .ok _ =>
      let updated := { current_request with
        data_updates := current_request.data_updates ++ [decode data] }
      .ok { s with handle_to_request_map :=
              mapInsert job_handle updated s.handle_to_request_map }

/-- `GearmanClientCommandHandler.recv_work_warning`. -/
def recv_work_warning (decode : String → D) (job_handle data : String)
    (s : CHState F D) : Except PyErr (CHState F D) :=
  match dictGet s.handle_to_request_map job_handle with
  | .error e => .error e
  | .ok current_request =>
    match assert_request_state current_request .QUEUED with
    | .error e => .error e
    | .ok _ =>
      let updated := { current_request with
        warning_updates := current_request.warning_updates ++ [decode data] }
      .ok { s with handle_to_request_map :=
              mapInsert job_handle updated s.handle_to_request_map }

/-- `GearmanClientCommandHandler.recv_work_status`; numerator and denominator
    are cast with Python `float(..)`, embedded as the parameter `pyfloat`. -/
def recv_work_status (pyfloat : String → F) (job_handle numerator denominator : String)
    (s : CHState F D) : Except PyErr (CHState F D) :=
  match dictGet s.handle_to_request_map job_handle with
  | .error e => .error e
  | .ok current_request =>
    match assert_request_state current_request .QUEUED with
    | .error e => .error e
    | .ok _ =>
      let updated := { current_request with
        status_updates := current_request.status_updates
          ++ [(pyfloat numerator, pyfloat denominator)] }
      .ok { s with handle_to_request_map :=
              mapInsert job_handle updated s.handle_to_request_map }

/-- `GearmanClientCommandHandler.recv_work_complete`. -/
def recv_work_complete (decode : String → D) (job_handle data : String)
    (s : CHState F D) : Except PyErr (CHState F D) :=
  match dictGet s.handle_to_request_map job_handle with
  | .error e => .error e
  | .ok current_request =>
    match assert_request_state current_request .QUEUED with
    | .error e => .error e
    | .ok _ =>
      let updated := { current_request with
        result := some (decode data), state := JobState.COMPLETE }
      .ok { s with handle_to_request_map :=
              mapInsert job_handle updated s.handle_to_request_map }

/-- `GearmanClientCommandHandler.recv_work_fail`. -/
def recv_work_fail (job_handle : String) (s : CHState F D) :
    Except PyErr (CHState F D) :=
  match dictGet s.handle_to_request_map job_handle with
  | .error e => .error e
  | .ok current_request =>
    match assert_request_state current_request .QUEUED with
    | .error e => .error e
    | .ok _ =>
      let updated := { current_request with state := JobState.FAILED }
      .ok { s with handle_to_request_map :=
              mapInsert job_handle updated s.handle_to_request_map }

/-- `GearmanClientCommandHandler.recv_work_exception`. -/
def recv_work_exception (decode : String → D) (job_handle data : String)
    (s : CHState F D) : Except PyErr (CHState F D) :=
  match dictGet s.handle_to_request_map job_handle with
  | .error e => .error e
  | .ok current_request =>
    match assert_request_state current_request .QUEUED with
    | .error e => .error e
    | .ok _ =>
      let updated := { current_request with exception := some (decode data) }
      .ok { s with handle_to_request_map :=
              mapInsert job_handle updated s.handle_to_request_map }

/-- `GearmanClientCommandHandler.recv_status_res`; `now` is `time.time()`. -/
def recv_status_res (pyfloat : String → F) (now : F)
    (job_handle known running numerator denominator : String)
    (s : CHState F D) : Except PyErr (CHState F D) :=
  match dictGet s.handle_to_request_map job_handle with
  | .error e => .error e
  | .ok current_request =>
    match assert_request_state current_request .QUEUED with
    | .error e => .error e
    | .ok _ =>
      let ss : ServerStatus F :=
        { handle := job_handle
          known := known == "1"
          running := running == "1"
          numerator := pyfloat numerator
          denominator := pyfloat denominator
          time_received := now }
      let updated := { current_request with server_status := some ss }
      .ok { s with handle_to_request_map :=
              mapInsert job_handle updated s.handle_to_request_map }

/-- One inbound Gearman command dispatched to the client handler
    (the `recv_<command>(**fields)` dispatch of the poller). -/
inductive RecvOp where
  | jobCreated (job_handle : String)
  | workData (job_handle data : String)
  | workWarning (job_handle data : String)
  | workStatus (job_handle numerator denominator : String)
  | workComplete (job_handle data : String)
  | workFail (job_handle : String)
  | workException (job_handle data : String)
  | statusRes (job_handle known running numerator denominator : String)
deriving DecidableEq, Repr

/-- Dispatch of one inbound command to the corresponding `recv_*` method. -/
def applyRecv (decode : String → D) (pyfloat : String → F) (now : F) :
    RecvOp → CHState F D → Except PyErr (CHState F D)
  | .jobCreated h => recv_job_created h
  | .workData h d => recv_work_data decode h d
  | .workWarning h d => recv_work_warning decode h d
  | .workStatus h n dn => recv_work_status pyfloat h n dn
  | .workComplete h d => recv_work_complete decode h d
  | .workFail h => recv_work_fail h
  | .workException h d => recv_work_exception decode h d
  | .statusRes h k r n dn => recv_status_res pyfloat now h k r n dn

/-- The request a `recv_*` call operates on, read off the pre-state:
    `recv_job_created` pops the head of the FIFO, every other `recv_*`
    looks its request up by job handle. -/
def touchedBefore : RecvOp → CHState F D → Option (CJobRequest F D)
  | .jobCreated _, s => s.requests_awaiting_handles.head?
  | .workData h _, s => s.handle_to_request_map h
  | .workWarning h _, s => s.handle_to_request_map h
  | .workStatus h _ _, s => s.handle_to_request_map h
  | .workComplete h _, s => s.handle_to_request_map h
  | .workFail h, s => s.handle_to_request_map h
  | .workException h _, s => s.handle_to_request_map h
  | .statusRes h _ _ _ _, s => s.handle_to_request_map h

/-- The same request after the call, read off the post-state: every
    `recv_*` call stores its (possibly updated) request under the job
    handle it was invoked with. -/
def touchedAfter : RecvOp → CHState F D → Option (CJobRequest F D)
  | .jobCreated h, s => s.handle_to_request_map h
  | .workData h _, s => s.handle_to_request_map h
  | .workWarning h _, s => s.handle_to_request_map h
  | .workStatus h _ _, s => s.handle_to_request_map h
  | .workComplete h _, s => s.handle_to_request_map h
  | .workFail h, s => s.handle_to_request_map h
  | .workException h _, s => s.handle_to_request_map h
  | .statusRes h _ _ _ _, s => s.handle_to_request_map h

/-- The transitions of the documented request lifecycle:
    PENDING → QUEUED and QUEUED → QUEUED / COMPLETE / FAILED. -/
def allowedStep : JobState → JobState → Bool
  | .PENDING, .QUEUED => true
  | .QUEUED, .QUEUED => true
  | .QUEUED, .COMPLETE => true
  | .QUEUED, .FAILED => true
  | _, _ => false

/-- Position of a state along the PENDING → QUEUED → terminal order. -/
def stateRank : JobState → Nat
  | .PENDING => 0
  | .QUEUED => 1
  | .COMPLETE => 2
  | .FAILED => 2

/-- COMPLETE and FAILED are the terminal states. -/
def isTerminal : JobState → Bool
  | .COMPLETE => true
  | .FAILED => true
  | _ => false

/-- True exactly when the call raised `InvalidClientState`. -/
def isInvalidClientStateErr : Except PyErr α → Bool
  | .error (.invalidClientState _) => true
  | _ => false

/-- Submitting a batch of requests: successive `send_job_request` calls. -/
def sendAll (reqs : List (CJobRequest F D)) (s : CHState F D) : CHState F D :=
  reqs.foldl (fun acc r => send_job_request r acc) s

/-- Receiving successive JOB_CREATED frames carrying the given handles. -/
def recvAll (handles : List String) (s : CHState F D) :
    Except PyErr (CHState F D) :=
  match handles with
  | [] => .ok s
  | h :: rest =>
    match recv_job_created h s with
    | .error e => .error e
    | .ok s1 => recvAll rest s1

/-! ## Worker: job lock, registration, job execution (`worker.py`) -/

/-- `GearmanWorker.set_job_lock`.  The worker's relevant state is the
    membership test of `handler_to_connection_map` (abstracted as the
    predicate `handler_in_map`) and `command_handler_holding_job_lock`
    (`holding`).  Returns the Python return value together with the new
    value of `command_handler_holding_job_lock`. -/
def set_job_lock [DecidableEq H] (handler_in_map : H → Bool)
    (holding : Option H) (command_handler : H) (lock : Bool) :
    Bool × Option H :=
  if handler_in_map command_handler = false then
    (false, holding)
  else
    let failed_lock := lock && holding.isSome
    let failed_unlock := !lock && !(holding == some command_handler)
    if failed_lock || failed_unlock then
      (false, holding)
    else if lock then
      (true, some command_handler)
    else
      (true, none)

/-- The registration state of a `GearmanWorker`: the `worker_abilities`
    dictionary (task name → callback, an association list with unique keys)
    plus the `handler_initial_state` entries and `worker_client_id`.
    `K` is the type of registered callback functions. -/
structure WorkerRegState (K : Type) where
  worker_abilities : List (String × K)
  worker_client_id : Option String
  init_abilities : List String
  init_client_id : Option String

/-- `GearmanWorker._update_initial_state`:
    `handler_initial_state['abilities'] = worker_abilities.keys()` and
    `handler_initial_state['client_id'] = worker_client_id`. -/
def update_initial_state (s : WorkerRegState K) : WorkerRegState K :=
  { s with init_abilities := s.worker_abilities.map Prod.fst
           init_client_id := s.worker_client_id }

/-- Python `worker_abilities.pop(task, None)`: drop the binding for `task`
    if present, no effect (and no exception) otherwise.  Dictionary keys are
    unique, so dropping every binding with that key coincides with `pop`. -/
def dictPop (m : List (String × K)) (task : String) : List (String × K) :=
  m.filter (fun p => p.1 ≠ task)

/-- Python dict lookup `d.get(k)` on the abilities association list. -/
def abilitiesFind (m : List (String × K)) (task : String) : Option K :=
  (m.find? (fun p => p.1 = task)).map Prod.snd

/-- `GearmanWorker.unregister_task`.  The fan-out
    `command_handler.set_abilities(..)` to each live handler sends CANT_DO
    updates over the connections and touches no state modelled here. -/
def unregister_task (s : WorkerRegState K) (task : String) :
    String × WorkerRegState K :=
  (task, update_initial_state
    { s with worker_abilities := dictPop s.worker_abilities task })

/-- A worker-side `GearmanJob`: `(handle, task, unique, data)`; the owning
    connection is not part of the behaviour modelled here. -/
structure WJob where
  handle : String
  task : String
  unique : String
  data : String
deriving DecidableEq, Repr

/-- Observable events of a worker while executing one job.  `R` is the type
    of user-callback results, `E` the type of decoded exception payloads.
    `callbackInvoked` records one invocation of the user callback;
    the `sent*` events record Gearman commands emitted for the job. -/
inductive WEvent (R E : Type) where
  | callbackInvoked (handle : String)
  | sentWorkComplete (handle : String) (data : R)
  | sentWorkFail (handle : String)
  | sentWorkException (handle : String) (data : E)
deriving DecidableEq, Repr

/-- Modelled from the spec: `GearmanWorkerCommandHandler.send_job_complete`
    (`worker_handler.py` is not under src/); per §4.5 it emits one
    WORK_COMPLETE command for the job. -/
def handler_send_job_complete (job : WJob) (data : R) : List (WEvent R E) :=
  [.sentWorkComplete job.handle data]

/-- Modelled from the spec: `GearmanWorkerCommandHandler.send_job_failure`
    (`worker_handler.py` is not under src/); per §4.5 it emits one
    WORK_FAIL command for the job. -/
def handler_send_job_failure (job : WJob) : List (WEvent R E) :=
  [.sentWorkFail job.handle]

/-- Modelled from the spec: `GearmanWorkerCommandHandler.send_job_exception`
    (`worker_handler.py` is not under src/); it emits one WORK_EXCEPTION
    command for the job. -/
def handler_send_job_exception (job : WJob) (data : E) : List (WEvent R E) :=
  [.sentWorkException job.handle data]

/-- `GearmanWorker.send_job_complete`: routes to the job's handler. -/
def send_job_complete (job : WJob) (data : R) : List (WEvent R E) :=
  handler_send_job_complete job data

/-- `GearmanWorker.send_job_failure`: routes to the job's handler. -/
def send_job_failure (job : WJob) : List (WEvent R E) :=
  handler_send_job_failure job

/-- `GearmanWorker.send_job_exception`: routes to the job's handler, calling
    `send_job_exception` and then `send_job_failure` on it. -/
def send_job_exception (job : WJob) (data : E) : List (WEvent R E) :=
  handler_send_job_exception job data ++ handler_send_job_failure job

/-- `GearmanWorker.on_job_exception`: fail the job, return False. -/
def on_job_exception (job : WJob) : Bool × List (WEvent R E) :=
  (false, send_job_failure job)

/-- `GearmanWorker.on_job_complete`: complete the job, return True. -/
def on_job_complete (job : WJob) (job_result : R) : Bool × List (WEvent R E) :=
  (true, send_job_complete job job_result)

/-- `GearmanWorker.on_job_execute`.  The user callback is a function that
    either returns a result or raises (`Except Exc R`); `worker_abilities`
    is the registered-callback dictionary.  The `try` block covers both the
    ability lookup (whose `KeyError` for an unregistered task is caught) and
    the callback invocation; `callbackInvoked` marks that invocation. -/
def on_job_execute (worker_abilities : String → Option (WJob → Except Exc R))
    (current_job : WJob) : Bool × List (WEvent R E) :=
  match worker_abilities current_job.task with
  | none => on_job_exception current_job
  | some function_callback =>
    match function_callback current_job with
    | .error _ =>
      let p := on_job_exception (R := R) (E := E) current_job
      (p.1, .callbackInvoked current_job.handle :: p.2)
    | .ok job_result =>
      let p := on_job_complete (E := E) current_job job_result
      (p.1, .callbackInvoked current_job.handle :: p.2)

/-- Number of user-callback invocations recorded on a trace. -/
def countInvoked (events : List (WEvent R E)) : Nat :=
  events.countP (fun e => match e with
    | .callbackInvoked _ => true
    | _ => false)

/-! ## Admin client (`admin_client.py`) -/

/-- `InvalidAdminClientState` (from `gearman.errors`). -/
inductive AdminErr where
  | invalidAdminClientState (msg : String)
deriving DecidableEq, Repr

/-- State of a `GearmanAdminClientCommandHandler`: the FIFO of parsed
    responses, each tagged with its command kind.  `R` is the type of
    parsed response payloads. -/
structure AdminHandlerState (R : Type) where
  response_queue : List (String × R)
deriving DecidableEq, Repr

/-- Modelled from the spec: the admin handler's `response_ready` flag
    (`admin_client_handler.py` is not under src/); by invariant 4 of the
    data model it holds exactly when a parsed response sits in the queue. -/
def response_ready (s : AdminHandlerState R) : Bool :=
  !s.response_queue.isEmpty

/-- Modelled from the spec: `pop_response` on the admin handler
    (`admin_client_handler.py` is not under src/); it pops the head of the
    response FIFO, leaving the rest for later calls. -/
def pop_response (s : AdminHandlerState R) :
    Option ((String × R) × AdminHandlerState R) :=
  match s.response_queue with
  | [] => none
  | hd :: rest => some (hd, { response_queue := rest })

/-- Python `repr` of a string constant, as produced by `'%r' % cmd`. -/
def pyRepr (s : String) : String := "'" ++ s ++ "'"

/-- The message of the admin timeout error; `timeout_repr` stands for
    `'%f' % self.admin_client_timeout`, the rendered timeout in seconds. -/
def timeoutMsg (timeout_repr : String) : String :=
  "Admin client timed out after " ++ timeout_repr ++ " second(s)"

/-- The message of the admin kind-mismatch error. -/
def mismatchMsg (got expected : String) : String :=
  "Received an unexpected response... got command " ++ pyRepr got
    ++ ", expecting command " ++ pyRepr expected

/-- `GearmanAdminClient.wait_until_server_responds`, from the point the poll
    loop returns: the post-poll handler state is the input `s`, and the
    handler state after the call is returned alongside the outcome (the
    Python object keeps its mutated state when an exception propagates). -/
def wait_until_server_responds (timeout_repr expected_type : String)
    (s : AdminHandlerState R) : Except AdminErr R × AdminHandlerState R :=
  if response_ready s = false then
    (.error (.invalidAdminClientState (timeoutMsg timeout_repr)), s)
  else
    match pop_response s with
    | none =>
      (.error (.invalidAdminClientState "pop from an empty response queue"), s)
    | some ((cmd_type, cmd_resp), s1) =>
      if cmd_type ≠ expected_type then
        (.error (.invalidAdminClientState (mismatchMsg cmd_type expected_type)), s1)
      else
        (.ok cmd_resp, s1)

/-! ## Common shape of the `recv_work_*` callbacks and concrete sample states -/

/-- The shared shape of the seven handle-indexed `recv_*` callbacks: look the
    request up by handle (`KeyError` when absent), require state QUEUED
    (`InvalidClientState` otherwise), store the updated request back. -/
def withQueued (job_handle : String)
    (upd : CJobRequest F D → CJobRequest F D) (s : CHState F D) :
    Except PyErr (CHState F D) :=
  match dictGet s.handle_to_request_map job_handle with
  | .error e => .error e
  | .ok current_request =>
    match assert_request_state current_request .QUEUED with
    | .error e => .error e
    | .ok _ =>
      .ok { s with handle_to_request_map :=
              mapInsert job_handle (upd current_request) s.handle_to_request_map }

/-- A sample request in state QUEUED, used to instantiate theorems. -/
def sampleQueuedReq : CJobRequest Nat String :=
  { handle := some "H", task := "t", unique := "u", jobData := "d"
    state := .QUEUED, result := none, exception := none
    data_updates := [], warning_updates := [], status_updates := []
    server_status := none }

/-- A sample request in state PENDING. -/
def samplePendingReq : CJobRequest Nat String :=
  { sampleQueuedReq with handle := none, state := .PENDING }

/-- A sample request in state COMPLETE. -/
def sampleCompleteReq : CJobRequest Nat String :=
  { sampleQueuedReq with state := .COMPLETE }

/-- A fresh client handler state (`__init__`). -/
def emptyCH : CHState Nat String :=
  { requests_awaiting_handles := [], handle_to_request_map := fun _ => none }

/-- A handler state tracking `sampleQueuedReq` under handle "H". -/
def sampleStateQ : CHState Nat String :=
  { requests_awaiting_handles := []
    handle_to_request_map := fun g => if g = "H" then some sampleQueuedReq else none }

/-- A handler state tracking `sampleCompleteReq` under handle "H". -/
def sampleStateC : CHState Nat String :=
  { requests_awaiting_handles := []
    handle_to_request_map := fun g => if g = "H" then some sampleCompleteReq else none }

/-! ## Theorems -/

/-- Dropping the binding for `task` twice is the same as dropping it once. -/
lemma dictPop_dictPop (m : List (String × K)) (task : String) :
    dictPop (dictPop m task) task = dictPop m task := by
  simp [dictPop, List.filter_filter]

/-- After dropping the binding for `task`, the dictionary has no entry for it. -/
lemma abilitiesFind_dictPop (m : List (String × K)) (task : String) :
    abilitiesFind (dictPop m task) task = none := by
  induction m with
  | nil => rfl
  | cons p l ih =>
    by_cases hp : p.1 = task
    · have hd : dictPop (p :: l) task = dictPop l task := by
        simp [dictPop, hp]
      rw [hd]
      exact ih
    · simp [dictPop, abilitiesFind, List.find?, hp]

/-- C10: `unregister_task` never fails even for a task that was never
    registered: it returns the task name, afterwards `worker_abilities` has
    no entry for the task, and a second call with the same task leaves
    `worker_abilities` and `handler_initial_state` exactly as the first call
    left them. -/
theorem unregister_task_idempotent (s : WorkerRegState K) (task : String) :
    (unregister_task s task).1 = task
    ∧ abilitiesFind (unregister_task s task).2.worker_abilities task = none
    ∧ unregister_task (unregister_task s task).2 task = unregister_task s task := by
  refine ⟨rfl, ?_, ?_⟩
  · simp [unregister_task, update_initial_state, abilitiesFind_dictPop]
  · simp [unregister_task, update_initial_state, dictPop_dictPop]

/-- C9: `GearmanWorker.send_job_exception` always emits a WORK_FAIL for the
    job in addition to the WORK_EXCEPTION, exception first and failure
    second, so a caller can never emit a WORK_EXCEPTION through this method
    without the job also being failed. -/
theorem send_job_exception_always_fails (job : WJob) (data : E) :
    send_job_exception (R := R) job data =
      [WEvent.sentWorkException job.handle data, WEvent.sentWorkFail job.handle]
    ∧ WEvent.sentWorkFail (R := R) (E := E) job.handle ∈ send_job_exception job data := by
  constructor
  · rfl
  · simp [send_job_exception, handler_send_job_exception, handler_send_job_failure]

/-- C5 counterexample: for a command handler that is not registered in
    `handler_to_connection_map`, acquiring the job lock fails even though no
    handler currently holds the lock, so "acquisition succeeds iff no
    handler holds the lock" is false as stated. -/
theorem set_job_lock_unregistered_cex :
    ¬ (((set_job_lock (fun _ : Nat => false) none 0 true).1 = true) ↔
        (none : Option Nat) = none) := by
  decide

/-- C5 (amended): for a handler registered in `handler_to_connection_map`,
    acquisition succeeds and sets the holder iff no handler holds the lock,
    and release succeeds and clears the holder iff the handler is the
    current holder; for an unregistered handler the call returns False; in
    every failing case the call returns False with the holder unchanged. -/
theorem set_job_lock_spec [DecidableEq H] (handler_in_map : H → Bool)
    (holding : Option H) (h : H) :
    (handler_in_map h = true →
      ((set_job_lock handler_in_map holding h true = (true, some h) ↔ holding = none)
       ∧ (holding ≠ none → set_job_lock handler_in_map holding h true = (false, holding))
       ∧ (set_job_lock handler_in_map holding h false = (true, none) ↔ holding = some h)
       ∧ (holding ≠ some h → set_job_lock handler_in_map holding h false = (false, holding))))
    ∧ (handler_in_map h = false →
        set_job_lock handler_in_map holding h true = (false, holding)
        ∧ set_job_lock handler_in_map holding h false = (false, holding)) := by
  constructor
  · intro hin
    cases holding with
    | none => simp [set_job_lock, hin]
    | some a =>
      by_cases hah : a = h
      · subst hah
        simp [set_job_lock, hin]
      · simp [set_job_lock, hin, hah, Ne.symm hah]
  · intro hin
    simp [set_job_lock, hin]

/-- C5 witness: a registered handler acquires the free lock. -/
theorem set_job_lock_spec_witness :
    set_job_lock (fun _ : Nat => true) none 0 true = (true, some 0) :=
  (((set_job_lock_spec (fun _ : Nat => true) none 0).1 rfl).1).mpr rfl

/-- C4: on a QUEUED request indexed under the job handle,
    `recv_work_exception` stores the decoded data as the request's
    `exception` and changes nothing else: the resulting handler state is the
    old one with only the entry at that handle replaced by the same request
    with `exception` set (state still QUEUED, `result`, `data_updates`,
    `warning_updates`, `status_updates` untouched), and the FIFO of
    requests awaiting handles unchanged. -/
theorem recv_work_exception_frame (decode : String → D) (s : CHState F D)
    (job_handle data : String) (r : CJobRequest F D)
    (hr : s.handle_to_request_map job_handle = some r)
    (hq : r.state = .QUEUED) :
    recv_work_exception decode job_handle data s =
      .ok { s with handle_to_request_map :=
              (mapInsert job_handle { r with exception := some (decode data) }
                s.handle_to_request_map) } := by
  simp [recv_work_exception, dictGet, hr, assert_request_state, hq]

/-- C4 witness at a concrete QUEUED request. -/
theorem recv_work_exception_frame_witness :
    recv_work_exception (fun x => x) "H" "boom" sampleStateQ =
      .ok { sampleStateQ with handle_to_request_map :=
              (mapInsert "H" { sampleQueuedReq with exception := some "boom" }
                sampleStateQ.handle_to_request_map) } :=
  recv_work_exception_frame (fun x => x) sampleStateQ "H" "boom" sampleQueuedReq
    (by simp [sampleStateQ]) rfl

/-- C3 counterexample: for a handle absent from `handle_to_request_map`, the
    update callbacks fail with `KeyError` (the unchecked dictionary lookup),
    not with `InvalidClientState` as claimed. -/
theorem recv_work_unknown_handle_cex :
    recv_work_data (fun x => x) "H" "d" emptyCH = .error (.keyError "H")
    ∧ isInvalidClientStateErr (recv_work_data (fun x => x) "H" "d" emptyCH) = false
    ∧ isInvalidClientStateErr (recv_work_warning (fun x => x) "H" "d" emptyCH) = false
    ∧ isInvalidClientStateErr
        (recv_work_status (fun _ => (0 : Nat)) "H" "3" "10" emptyCH) = false := by
  refine ⟨rfl, rfl, rfl, rfl⟩

/-- C3 (amended): for a job_handle not present in `handle_to_request_map`,
    each of `recv_work_data`, `recv_work_warning` and `recv_work_status`
    fails by raising `KeyError` (not `InvalidClientState`); for a handle
    whose request is in QUEUED, `recv_work_data` appends the decoded data to
    `data_updates`, `recv_work_warning` appends to `warning_updates`, and
    `recv_work_status` appends the float-parsed (numerator, denominator)
    pair to `status_updates`, leaving the request's state QUEUED. -/
theorem recv_work_updates_spec (decode : String → D) (pyfloat : String → F)
    (s : CHState F D) (job_handle d num den : String) :
    (s.handle_to_request_map job_handle = none →
      recv_work_data decode job_handle d s = .error (.keyError job_handle)
      ∧ recv_work_warning decode job_handle d s = .error (.keyError job_handle)
      ∧ recv_work_status pyfloat job_handle num den s = .error (.keyError job_handle))
    ∧ (∀ r, s.handle_to_request_map job_handle = some r → r.state = .QUEUED →
      recv_work_data decode job_handle d s =
        .ok { s with handle_to_request_map :=
          (mapInsert job_handle
            { r with data_updates := r.data_updates ++ [decode d] }
            s.handle_to_request_map) }
      ∧ recv_work_warning decode job_handle d s =
        .ok { s with handle_to_request_map :=
          (mapInsert job_handle
            { r with warning_updates := r.warning_updates ++ [decode d] }
            s.handle_to_request_map) }
      ∧ recv_work_status pyfloat job_handle num den s =
        .ok { s with handle_to_request_map :=
          (mapInsert job_handle
            { r with status_updates := r.status_updates ++ [(pyfloat num, pyfloat den)] }
            s.handle_to_request_map) }) := by
  constructor
  · intro hnone
    refine ⟨?_, ?_, ?_⟩ <;>
      simp [recv_work_data, recv_work_warning, recv_work_status, dictGet, hnone]
  · intro r hr hq
    refine ⟨?_, ?_, ?_⟩ <;>
      simp [recv_work_data, recv_work_warning, recv_work_status, dictGet, hr,
        assert_request_state, hq]

/-- C3 witness: appending one WORK_DATA update to a concrete QUEUED request. -/
theorem recv_work_updates_spec_witness :
    recv_work_data (fun x => x) "H" "d" sampleStateQ =
      .ok { sampleStateQ with handle_to_request_map :=
        (mapInsert "H" { sampleQueuedReq with data_updates := [].append ["d"] }
          sampleStateQ.handle_to_request_map) } :=
  (((recv_work_updates_spec (fun x => x) (fun _ => (0 : Nat)) sampleStateQ "H" "d" "3"
      "10").2 sampleQueuedReq (by simp [sampleStateQ]) rfl)).1

/-- C7: if the poll loop returns while the handler's response is not ready,
    `wait_until_server_responds` raises `InvalidAdminClientState` whose
    message reports the configured timeout in seconds, and returns no value
    (the outcome is the error, with the handler state untouched). -/
theorem admin_timeout_spec (timeout_repr expected_type : String)
    (s : AdminHandlerState R) (hnr : response_ready s = false) :
    wait_until_server_responds timeout_repr expected_type s =
      (.error (.invalidAdminClientState
        ("Admin client timed out after " ++ timeout_repr ++ " second(s)")), s) := by
  simp [wait_until_server_responds, hnr, timeoutMsg]

/-- C7 witness: a server that never replied leaves an empty response queue. -/
theorem admin_timeout_spec_witness :
    wait_until_server_responds "0.100000" "status"
        ({ response_queue := [] } : AdminHandlerState String) =
      (.error (.invalidAdminClientState
        ("Admin client timed out after " ++ "0.100000" ++ " second(s)")),
       ({ response_queue := [] } : AdminHandlerState String)) :=
  admin_timeout_spec "0.100000" "status" { response_queue := [] } rfl

/-- C6: when a ready response is waiting, `wait_until_server_responds` pops
    it from the handler's response queue; if its kind differs from the
    expected kind it raises `InvalidAdminClientState` with the popped
    response dropped (the post-call queue no longer holds it), and if the
    kinds match the parsed response is returned. -/
theorem admin_kind_check_spec (timeout_repr expected_type X : String) (resp : R)
    (rest : List (String × R)) (s : AdminHandlerState R)
    (hq : s.response_queue = (X, resp) :: rest) :
    (X ≠ expected_type →
      wait_until_server_responds timeout_repr expected_type s =
        (.error (.invalidAdminClientState (mismatchMsg X expected_type)),
         { response_queue := rest }))
    ∧ (X = expected_type →
      wait_until_server_responds timeout_repr expected_type s =
        (.ok resp, { response_queue := rest })) := by
  constructor
  · intro hne
    simp [wait_until_server_responds, response_ready, pop_response, hq, hne]
  · intro heq
    simp [wait_until_server_responds, response_ready, pop_response, hq, heq]

/-- C6 witness: a "workers" response arriving while "status" was expected is
    dropped and the call fails. -/
theorem admin_kind_check_spec_witness :
    wait_until_server_responds "10.000000" "status"
        ({ response_queue := [("workers", "w1")] } : AdminHandlerState String) =
      (.error (.invalidAdminClientState (mismatchMsg "workers" "status")),
       ({ response_queue := [] } : AdminHandlerState String)) :=
  (admin_kind_check_spec "10.000000" "status" "workers" "w1" []
    { response_queue := [("workers", "w1")] } rfl).1 (by decide)

/-- C8: for a job whose task has a registered callback, `on_job_execute`
    invokes the callback exactly once; if the callback returns a result the
    worker sends WORK_COMPLETE carrying that result and returns True; if the
    callback raises, the worker sends WORK_FAIL (and no WORK_COMPLETE) and
    returns False. -/
theorem on_job_execute_spec (worker_abilities : String → Option (WJob → Except Exc R))
    (current_job : WJob) (cb : WJob → Except Exc R)
    (hreg : worker_abilities current_job.task = some cb) :
    countInvoked (E := E) (on_job_execute worker_abilities current_job).2 = 1
    ∧ (∀ r, cb current_job = .ok r →
        on_job_execute (E := E) worker_abilities current_job =
          (true, [WEvent.callbackInvoked current_job.handle,
                  WEvent.sentWorkComplete current_job.handle r]))
    ∧ (∀ e, cb current_job = .error e →
        on_job_execute (E := E) worker_abilities current_job =
          (false, [WEvent.callbackInvoked current_job.handle,
                   WEvent.sentWorkFail current_job.handle])) := by
  refine ⟨?_, ?_, ?_⟩
  · cases hcb : cb current_job <;>
      simp [on_job_execute, hreg, hcb, on_job_exception, on_job_complete,
        send_job_failure, send_job_complete, handler_send_job_failure,
        handler_send_job_complete, countInvoked]
  · intro r hcb
    simp [on_job_execute, hreg, hcb, on_job_complete, send_job_complete,
      handler_send_job_complete]
  · intro e hcb
    simp [on_job_execute, hreg, hcb, on_job_exception, send_job_failure,
      handler_send_job_failure]

/-- C8 witness: a registered callback that returns 7 yields WORK_COMPLETE. -/
theorem on_job_execute_spec_witness :
    on_job_execute (E := String)
        (fun _ => some (fun _ => (.ok 7 : Except Unit Nat)))
        { handle := "H", task := "rev", unique := "u", data := "abc" } =
      (true, [WEvent.callbackInvoked "H", WEvent.sentWorkComplete "H" 7]) :=
  (on_job_execute_spec (fun _ => some (fun _ => (.ok 7 : Except Unit Nat)))
    { handle := "H", task := "rev", unique := "u", data := "abc" }
    (fun _ => .ok 7) rfl).2.1 7 rfl

/-! ### Client state monotonicity -/

lemma recv_work_data_eq (decode : String → D) (h d : String) (s : CHState F D) :
    recv_work_data decode h d s =
      withQueued h (fun r => { r with data_updates := r.data_updates ++ [decode d] }) s := by
  unfold recv_work_data withQueued
  cases dictGet s.handle_to_request_map h with
  | error e => rfl
  | ok r =>
    cases assert_request_state r JobState.QUEUED with
    | error e => rfl
    | ok u => rfl

lemma recv_work_warning_eq (decode : String → D) (h d : String) (s : CHState F D) :
    recv_work_warning decode h d s =
      withQueued h (fun r => { r with warning_updates := r.warning_updates ++ [decode d] }) s := by
  unfold recv_work_warning withQueued
  cases dictGet s.handle_to_request_map h with
  | error e => rfl
  | ok r =>
    cases assert_request_state r JobState.QUEUED with
    | error e => rfl
    | ok u => rfl

lemma recv_work_status_eq (pyfloat : String → F) (h n dn : String) (s : CHState F D) :
    recv_work_status pyfloat h n dn s =
      withQueued h (fun r =>
        { r with status_updates := r.status_updates ++ [(pyfloat n, pyfloat dn)] }) s := by
  rfl

lemma recv_work_complete_eq (decode : String → D) (h d : String) (s : CHState F D) :
    recv_work_complete decode h d s =
      withQueued h (fun r =>
        { r with result := some (decode d), state := JobState.COMPLETE }) s := by
  unfold recv_work_complete withQueued
  cases dictGet s.handle_to_request_map h with
  | error e => rfl
  | ok r =>
    cases assert_request_state r JobState.QUEUED with
    | error e => rfl
    | ok u => rfl

lemma recv_work_fail_eq (h : String) (s : CHState F D) :
    recv_work_fail h s =
      withQueued h (fun r => { r with state := JobState.FAILED }) s := by
  rfl

lemma recv_work_exception_eq (decode : String → D) (h d : String) (s : CHState F D) :
    recv_work_exception decode h d s =
      withQueued h (fun r => { r with exception := some (decode d) }) s := by
  unfold recv_work_exception withQueued
  cases dictGet s.handle_to_request_map h with
  | error e => rfl
  | ok r =>
    cases assert_request_state r JobState.QUEUED with
    | error e => rfl
    | ok u => rfl

lemma recv_status_res_eq (pyfloat : String → F) (now : F)
    (h k rn n dn : String) (s : CHState F D) :
    recv_status_res pyfloat now h k rn n dn s =
      withQueued h (fun r => { r with server_status := (some
        { handle := h, known := k == "1", running := rn == "1"
          numerator := pyfloat n, denominator := pyfloat dn
          time_received := now }) }) s := by
  rfl

lemma allowedStep_rank (a b : JobState) (h : allowedStep a b = true) :
    stateRank a ≤ stateRank b := by
  cases a <;> cases b <;> revert h <;> decide

lemma terminal_ne_queued (a : JobState) (h : isTerminal a = true) :
    a ≠ JobState.QUEUED := by
  cases a <;> revert h <;> decide

lemma terminal_ne_pending (a : JobState) (h : isTerminal a = true) :
    a ≠ JobState.PENDING := by
  cases a <;> revert h <;> decide

/-- Success and terminal-rejection behaviour of the shared callback shape. -/
lemma withQueued_mono (job_handle : String)
    (upd : CJobRequest F D → CJobRequest F D)
    (hupd : ∀ r : CJobRequest F D, r.state = .QUEUED →
      allowedStep JobState.QUEUED (upd r).state = true)
    (s : CHState F D) :
    (∀ s1, withQueued job_handle upd s = .ok s1 →
      ∃ r r1, s.handle_to_request_map job_handle = some r
        ∧ s1.handle_to_request_map job_handle = some r1
        ∧ allowedStep r.state r1.state = true
        ∧ stateRank r.state ≤ stateRank r1.state)
    ∧ (∀ r, s.handle_to_request_map job_handle = some r →
        isTerminal r.state = true →
        (withQueued job_handle upd s).isOk = false) := by
  constructor
  · intro s1 hok
    cases hm : s.handle_to_request_map job_handle with
    | none => simp [withQueued, dictGet, hm] at hok
    | some r =>
      by_cases hst : r.state = .QUEUED
      · simp [withQueued, dictGet, hm, assert_request_state, hst] at hok
        refine ⟨r, upd r, rfl, ?_, ?_, ?_⟩
        · rw [← hok]
          simp [mapInsert]
        · rw [hst]
          exact hupd r hst
        · have h2 := allowedStep_rank _ _ (hupd r hst)
          rw [hst]
          exact h2
      · simp [withQueued, dictGet, hm, assert_request_state, hst] at hok
  · intro r hr ht
    have hst := terminal_ne_queued r.state ht
    simp [withQueued, dictGet, hr, assert_request_state, hst, Except.isOk,
      Except.toBool]

/-- C2: along every `recv_*` call, the state of the request the call
    operates on only moves along PENDING → QUEUED → {COMPLETE, FAILED}
    (never backward in rank), and a request already in a terminal state is
    never transitioned: any `recv_*` call touching it raises instead of
    succeeding. -/
theorem client_state_monotonic (decode : String → D) (pyfloat : String → F)
    (now : F) (op : RecvOp) (s : CHState F D) :
    (∀ s1, applyRecv decode pyfloat now op s = .ok s1 →
      ∃ r r1, touchedBefore op s = some r ∧ touchedAfter op s1 = some r1
        ∧ allowedStep r.state r1.state = true
        ∧ stateRank r.state ≤ stateRank r1.state)
    ∧ (∀ r, touchedBefore op s = some r → isTerminal r.state = true →
        (applyRecv decode pyfloat now op s).isOk = false) := by
  cases op with
  | jobCreated h =>
    constructor
    · intro s1 hok
      cases hA : s.requests_awaiting_handles with
      | nil => simp [applyRecv, recv_job_created, hA] at hok
      | cons r rest =>
        by_cases hst : r.state = .PENDING
        · simp [applyRecv, recv_job_created, hA, assert_request_state, hst] at hok
          refine ⟨r, { r with handle := some h, state := JobState.QUEUED },
            by simp [touchedBefore, hA], ?_, ?_, ?_⟩
          · show s1.handle_to_request_map h = _
            rw [← hok]
            simp [mapInsert]
          · rw [hst]
            rfl
          · rw [hst]
            simp [stateRank]
        · simp [applyRecv, recv_job_created, hA, assert_request_state, hst] at hok
    · intro r hr ht
      cases hA : s.requests_awaiting_handles with
      | nil => simp [touchedBefore, hA] at hr
      | cons r0 rest =>
        have hr0 : r0 = r := by
          simp [touchedBefore, hA] at hr
          exact hr
        subst hr0
        have hst := terminal_ne_pending r0.state ht
        simp [applyRecv, recv_job_created, hA, assert_request_state, hst, Except.isOk,
          Except.toBool]
  | workData h d =>
    have := withQueued_mono h
      (fun r => { r with data_updates := r.data_updates ++ [decode d] })
      (fun r hq => by simp [allowedStep, hq]) s
    simpa [applyRecv, recv_work_data_eq, touchedBefore, touchedAfter] using this
  | workWarning h d =>
    have := withQueued_mono h
      (fun r => { r with warning_updates := r.warning_updates ++ [decode d] })
      (fun r hq => by simp [allowedStep, hq]) s
    simpa [applyRecv, recv_work_warning_eq, touchedBefore, touchedAfter] using this
  | workStatus h n dn =>
    have := withQueued_mono h
      (fun r => { r with status_updates := r.status_updates ++ [(pyfloat n, pyfloat dn)] })
      (fun r hq => by simp [allowedStep, hq]) s
    simpa [applyRecv, recv_work_status_eq, touchedBefore, touchedAfter] using this
  | workComplete h d =>
    have := withQueued_mono h
      (fun r => { r with result := some (decode d), state := JobState.COMPLETE })
      (fun r hq => by simp [allowedStep, hq]) s
    simpa [applyRecv, recv_work_complete_eq, touchedBefore, touchedAfter] using this
  | workFail h =>
    have := withQueued_mono h
      (fun r => { r with state := JobState.FAILED })
      (fun r hq => by simp [allowedStep, hq]) s
    simpa [applyRecv, recv_work_fail_eq, touchedBefore, touchedAfter] using this
  | workException h d =>
    have := withQueued_mono h
      (fun r => { r with exception := some (decode d) })
      (fun r hq => by simp [allowedStep, hq]) s
    simpa [applyRecv, recv_work_exception_eq, touchedBefore, touchedAfter] using this
  | statusRes h k rn n dn =>
    have := withQueued_mono h
      (fun r => { r with server_status := (some
        { handle := h, known := k == "1", running := rn == "1"
          numerator := pyfloat n, denominator := pyfloat dn
          time_received := now }) })
      (fun r hq => by simp [allowedStep, hq]) s
    simpa [applyRecv, recv_status_res_eq, touchedBefore, touchedAfter] using this

/-- C2 witness: WORK_FAIL on a request already COMPLETE raises rather than
    transitioning the request. -/
theorem client_state_monotonic_witness :
    (applyRecv (fun x => x) (fun _ => (0 : Nat)) 0 (RecvOp.workFail "H")
      sampleStateC).isOk = false :=
  (client_state_monotonic (fun x => x) (fun _ => (0 : Nat)) 0
    (RecvOp.workFail "H") sampleStateC).2 sampleCompleteReq
    (by simp [sampleStateC, touchedBefore]) rfl

/-! ### Submit ordering -/

/-- Submitting a batch appends the requests, in order, to the FIFO and
    leaves the handle map untouched. -/
lemma sendAll_spec (reqs : List (CJobRequest F D)) (s : CHState F D) :
    (sendAll reqs s).requests_awaiting_handles = s.requests_awaiting_handles ++ reqs
    ∧ (sendAll reqs s).handle_to_request_map = s.handle_to_request_map := by
  induction reqs generalizing s with
  | nil => simp [sendAll]
  | cons r rest ih =>
    have h1 : sendAll (r :: rest) s = sendAll rest (send_job_request r s) := rfl
    rw [h1]
    obtain ⟨ha, hm⟩ := ih (send_job_request r s)
    refine ⟨?_, hm⟩
    rw [ha]
    simp [send_job_request]

/-- Processing the first `k` JOB_CREATED frames succeeds and leaves exactly
    the requests from position `k` on awaiting their handles. -/
lemma recvAll_take_spec (handles : List String) :
    ∀ (reqs : List (CJobRequest F D)) (s : CHState F D),
      s.requests_awaiting_handles = reqs →
      handles.length = reqs.length →
      (∀ r ∈ reqs, r.state = .PENDING) →
      ∀ k, k ≤ reqs.length →
      ∃ sk, recvAll (handles.take k) s = .ok sk
        ∧ sk.requests_awaiting_handles = reqs.drop k := by
  induction handles with
  | nil =>
    intro reqs s hS hlen hpend k hk
    cases reqs with
    | cons a b => simp at hlen
    | nil =>
      have hk0 : k = 0 := Nat.le_zero.mp hk
      subst hk0
      exact ⟨s, rfl, by simpa using hS⟩
  | cons h hs ih =>
    intro reqs s hS hlen hpend k hk
    cases reqs with
    | nil =>
      have hk0 : k = 0 := Nat.le_zero.mp hk
      subst hk0
      exact ⟨s, rfl, by simpa using hS⟩
    | cons r rs =>
      cases k with
      | zero => exact ⟨s, rfl, by simpa using hS⟩
      | succ k =>
        have hr : r.state = .PENDING := hpend r (List.mem_cons_self r rs)
        have hstep : recv_job_created h s = .ok
            { requests_awaiting_handles := rs,
              handle_to_request_map :=
                (mapInsert h { r with handle := some h, state := JobState.QUEUED }
                  s.handle_to_request_map) } := by
          simp [recv_job_created, hS, assert_request_state, hr]
        obtain ⟨sk, h1, h2⟩ := ih rs
          { requests_awaiting_handles := rs,
            handle_to_request_map :=
              (mapInsert h { r with handle := some h, state := JobState.QUEUED }
                s.handle_to_request_map) }
          rfl (by simpa using hlen)
          (fun x hx => hpend x (List.mem_cons_of_mem r hx))
          k (Nat.le_of_succ_le_succ hk)
        refine ⟨sk, ?_, by simpa using h2⟩
        have htake : (h :: hs).take (k + 1) = h :: hs.take k := rfl
        rw [htake]
        simp [recvAll, hstep, h1]

/-- C1: starting from a handler with no requests awaiting handles, after
    submitting N requests (all still PENDING) the k-th JOB_CREATED frame
    pops the k-th submitted request from `requests_awaiting_handles`,
    assigns it the k-th handle, transitions it to QUEUED and records it in
    `handle_to_request_map`; and `recv_job_created` on a handler whose
    `requests_awaiting_handles` is empty raises `InvalidClientState`. -/
theorem submit_order_spec (s0 : CHState F D) (reqs : List (CJobRequest F D))
    (handles : List String)
    (hempty : s0.requests_awaiting_handles = [])
    (hlen : handles.length = reqs.length)
    (hpend : ∀ r ∈ reqs, r.state = .PENDING) :
    (∀ k, (hk : k < reqs.length) → (hk2 : k < handles.length) →
      ∃ sk, recvAll (handles.take k) (sendAll reqs s0) = .ok sk
        ∧ sk.requests_awaiting_handles = reqs.drop k
        ∧ recv_job_created (handles.get ⟨k, hk2⟩) sk =
            .ok { requests_awaiting_handles := reqs.drop (k + 1),
                  handle_to_request_map :=
                    (mapInsert (handles.get ⟨k, hk2⟩)
                      { reqs.get ⟨k, hk⟩ with
                          handle := some (handles.get ⟨k, hk2⟩),
                          state := JobState.QUEUED }
                      sk.handle_to_request_map) })
    ∧ (∀ (job_handle : String) (s : CHState F D),
        s.requests_awaiting_handles = [] →
        recv_job_created job_handle s =
          .error (.invalidClientState "Received a job_handle with no pending requests")) := by
  constructor
  · intro k hk hk2
    obtain ⟨hs0a, _⟩ := sendAll_spec reqs s0
    have hA : (sendAll reqs s0).requests_awaiting_handles = reqs := by
      rw [hs0a, hempty]
      simp
    obtain ⟨sk, h1, h2⟩ := recvAll_take_spec handles reqs (sendAll reqs s0)
      hA hlen hpend k (Nat.le_of_lt hk)
    refine ⟨sk, h1, h2, ?_⟩
    have hAk : sk.requests_awaiting_handles =
        reqs.get ⟨k, hk⟩ :: reqs.drop (k + 1) := by
      rw [h2]
      exact List.drop_eq_getElem_cons hk
    have hrk : (reqs.get ⟨k, hk⟩).state = .PENDING :=
      hpend _ (List.get_mem reqs k hk)
    revert hAk hrk
    generalize reqs.get ⟨k, hk⟩ = a
    generalize List.drop (k + 1) reqs = tl
    intro hAk hrk
    simp [recv_job_created, hAk, assert_request_state, hrk]
  · intro job_handle s hs
    simp [recv_job_created, hs]

/-- C1 witness: one pending submission receives the first handle. -/
theorem submit_order_spec_witness :
    ∃ sk, recvAll [] (sendAll [samplePendingReq] emptyCH) = .ok sk
      ∧ sk.requests_awaiting_handles = [samplePendingReq]
      ∧ recv_job_created "H1" sk =
          .ok { requests_awaiting_handles := ([] : List (CJobRequest Nat String)),
                handle_to_request_map :=
                  (mapInsert "H1"
                    { samplePendingReq with
                        handle := some "H1",
                        state := JobState.QUEUED }
                    sk.handle_to_request_map) } :=
  (submit_order_spec emptyCH [samplePendingReq] ["H1"] rfl rfl
    (by intro r hr; rw [List.mem_singleton] at hr; subst hr; rfl)).1
    0 (by decide) (by decide)

end Gearman
